import Mathlib

/-!
Verification development for the AMP repository: a browser extension that
turns free-text user commands on YouTube into a search query via a hosted
language model, then searches and plays the first result.

The embedding below is a shallow model of the three JavaScript source files:

* `src/unnamed/part_000` — the background script: the message listener and
  `processCommand`, which reads the API key from extension storage, issues a
  single request to the hosted completion endpoint, and turns the response
  into a result object `{success, message, searchQuery}` or
  `{success:false, error}`.
* `src/scripts/youtube-extension/content.js` — the content script: the send
  handlers that trim the input and only forward nonempty commands,
  `handleCommand` which renders the result and, on success with a nonempty
  `searchQuery`, dispatches `searchAndPlayYouTube`, which navigates to the
  search results for the query and clicks the first video.
* `src/youtube-extension/popup.js` — the settings popup: the save handler
  validating and storing the API key.

External effects (extension storage contents, the outcome of the single
`fetch`, the outcome of `chrome.storage.sync.set`, the DOM of the search
results page, the arrival order of asynchronous responses) are passed in
explicitly as environment values, and the network requests issued are
returned as an explicit list so that "no network call is made" is a
statement about the model.
-/

/-! ### JavaScript string primitives -/

/-- The whitespace characters removed by JavaScript's `String.prototype.trim`:
tab, LF, VT, FF, CR, space, NBSP, the Unicode space separators, line/paragraph
separators, narrow/medium spaces, ideographic space and the BOM. -/
def jsIsWhitespace (c : Char) : Bool :=
  c.toNat ∈ [0x9, 0xA, 0xB, 0xC, 0xD, 0x20, 0xA0, 0x1680, 0x2028, 0x2029,
             0x202F, 0x205F, 0x3000, 0xFEFF] ||
  (0x2000 ≤ c.toNat && c.toNat ≤ 0x200A)

/-- JavaScript `s.trim()`: strip leading and trailing whitespace. -/
def jsTrim (s : String) : String :=
  String.mk (((s.data.dropWhile jsIsWhitespace).reverse.dropWhile jsIsWhitespace).reverse)

/-- Truthiness of a JavaScript value that is either a string or
undefined/null: `undefined`, `null` and `""` are falsy. -/
def jsTruthy (o : Option String) : Bool :=
  match o with
  | none => false
  | some s => s ≠ ""

/-- JavaScript string coercion of a possibly-undefined string value, as it
happens in string concatenation and DOM text assignment
(`undefined` prints as "undefined"). -/
def jsStr (o : Option String) : String :=
  match o with
  | none => "undefined"
  | some s => s

/-- JavaScript `s.startsWith(p)`: whether `p` is a prefix of `s`. -/
def jsStartsWith (s p : String) : Bool :=
  p.data.isPrefixOf s.data

/-- JavaScript `a || b` for a possibly-undefined string `a`: returns `b`
when `a` is undefined/null or the empty string. -/
def jsOr (o : Option String) (d : String) : String :=
  match o with
  | none => d
  | some s => if s = "" then d else s

/-! ### Background script (`src/unnamed/part_000`)

`processCommand(command)`:
1. reads `apiKey` from `chrome.storage.sync`; if falsy, returns
   `{success:false, error:"API key not set. Click the extension icon to configure."}`
   without any network activity;
2. otherwise POSTs one request to the completion endpoint
   (`model: "claude-sonnet-4-5-20250929"`, `max_tokens: 200`, one user
   message built from the fixed prompt template and the raw command);
3. if `!response.ok`, throws `error.error?.message || "API request failed"`;
4. otherwise sets `searchQuery = data.content[0].text.trim()` and returns
   `{success:true, message:"🎵 Searching for: " + searchQuery, searchQuery}`
   (an absent `content[0]` makes step 4 throw a TypeError);
5. every throw inside the body is caught by its `try/catch`, which returns
   `{success:false, error: error.message}`.
-/

/-- The result object produced by `processCommand` and consumed by the
content script. It mirrors the literal objects in the source: the fields
that a given branch does not set are `undefined` (`none`). There is no
utterance-id field and no machine-readable error-kind field. -/
structure CommandResult where
  success : Bool
  message : Option String := none
  error : Option String := none
  searchQuery : Option String := none
deriving DecidableEq, Repr

/-- A thrown JavaScript error, reduced to its `message`. -/
structure JsError where
  message : String
deriving DecidableEq, Repr

/-- One HTTP request to the hosted completion endpoint, as built by
`processCommand`'s `fetch` call. -/
structure ClaudeRequest where
  model : String
  maxTokens : Nat
  prompt : String
deriving DecidableEq, Repr

/-- The prompt template of `processCommand`, with the raw command
interpolated. -/
def claudePrompt (command : String) : String :=
  "You are a YouTube music assistant. The user said: \"" ++ command ++ "\"\n\n" ++
  "Extract the music search query from this command. Respond with ONLY the search query text, nothing else.\n\n" ++
  "Examples:\nUser: \"play lofi hip hop\" → \"lofi hip hop\"\n" ++
  "User: \"play something energetic\" → \"energetic music\"\n" ++
  "User: \"I want to hear jazz\" → \"jazz music\"\n" ++
  "User: \"play Taylor Swift\" → \"Taylor Swift\"\n\n" ++
  "Now extract the search query:"

/-- The single request `processCommand` issues for a command. -/
def claudeRequestFor (command : String) : ClaudeRequest :=
  { model := "claude-sonnet-4-5-20250929", maxTokens := 200,
    prompt := claudePrompt command }

/-- Outcome of the one `fetch` to the completion endpoint, as the
environment decides it:
* `reject`: the fetch promise rejects (network failure) with an error message;
* `jsonFail`: a response arrives but `response.json()` throws;
* `response ok errBody content`: a response with `response.ok = ok` whose
  parsed JSON body carries `error.error?.message = errBody` (read on the
  non-ok path) and `data.content = content` as a list of text blocks (read
  on the ok path). -/
inductive FetchOutcome where
  | reject (msg : String)
  | jsonFail (msg : String)
  | response (ok : Bool) (errBody : Option String) (content : List String)
deriving DecidableEq, Repr

/-- The environment of one `processCommand` run: the stored API key
(`none` = unset) and the outcome the network would produce for the request. -/
structure Env where
  apiKey : Option String
  fetch : FetchOutcome
deriving DecidableEq, Repr

/-- The message of the TypeError thrown by `data.content[0].text` when the
response body has no content blocks. -/
def contentTypeErrorMessage : String :=
  "Cannot read properties of undefined (reading 'text')"

/-- The early-return result of `processCommand` when no API key is stored. -/
def noApiKeyResult : CommandResult :=
  { success := false,
    error := some "API key not set. Click the extension icon to configure." }

/-- The body of `processCommand`'s `try` block: either a returned result or
a thrown error, paired with the list of requests issued to the completion
endpoint. -/
def processCommandBody (command : String) (env : Env) :
    Except JsError CommandResult × List ClaudeRequest :=
  if ¬ jsTruthy env.apiKey then
    (.ok noApiKeyResult, [])
  else
    match env.fetch with
    | .reject msg => (.error ⟨msg⟩, [claudeRequestFor command])
    | .jsonFail msg => (.error ⟨msg⟩, [claudeRequestFor command])
    | .response ok errBody content =>
      if ¬ ok then
        (.error ⟨jsOr errBody "API request failed"⟩, [claudeRequestFor command])
      else
        match content with
        | [] => (.error ⟨contentTypeErrorMessage⟩, [claudeRequestFor command])
        | t :: _ =>
          let searchQuery := jsTrim t
          (.ok { success := true,
                 message := some ("🎵 Searching for: " ++ searchQuery),
                 searchQuery := some searchQuery },
           [claudeRequestFor command])

/-- `processCommand`: the body wrapped in its `try/catch`. Every thrown
error is converted into `{success:false, error: error.message}`; the
returned pair also reports the requests issued. -/
def processCommand (command : String) (env : Env) :
    CommandResult × List ClaudeRequest :=
  match processCommandBody command env with
  | (.ok r, reqs) => (r, reqs)
  | (.error e, reqs) => ({ success := false, error := some e.message }, reqs)

/-- The `chrome.runtime.onMessage` listener: forwards a PROCESS_COMMAND
message to `processCommand` and always answers with a plain result value
(its `.catch` would convert a rejection, but `processCommand` already
catches everything internally). -/
def onMessageResponse (command : String) (env : Env) : CommandResult :=
  (processCommand command env).1

/-! ### Content script (`src/scripts/youtube-extension/content.js`) -/

/-- `encodeURIComponent`: ASCII alphanumerics and `- _ . ! ~ * ' ( )` pass
through; every other character is percent-encoded byte-wise in UTF-8 with
uppercase hexadecimal digits. -/
def uriUnreservedMark (c : Char) : Bool :=
  c.toNat ∈ [0x2D, 0x5F, 0x2E, 0x21, 0x7E, 0x2A, 0x27, 0x28, 0x29]

/-- The UTF-8 bytes of a character, most significant first. -/
def utf8Bytes (c : Char) : List Nat :=
  let n := c.toNat
  if n < 0x80 then [n]
  else if n < 0x800 then [0xC0 + n / 0x40, 0x80 + n % 0x40]
  else if n < 0x10000 then
    [0xE0 + n / 0x1000, 0x80 + (n / 0x40) % 0x40, 0x80 + n % 0x40]
  else
    [0xF0 + n / 0x40000, 0x80 + (n / 0x1000) % 0x40,
     0x80 + (n / 0x40) % 0x40, 0x80 + n % 0x40]

/-- An uppercase hexadecimal digit. -/
def hexDigit (n : Nat) : Char :=
  if n < 10 then Char.ofNat (0x30 + n) else Char.ofNat (0x37 + n)

/-- A percent-encoded byte, e.g. `%20`. -/
def percentByte (b : Nat) : String :=
  "%" ++ String.mk [hexDigit (b / 16), hexDigit (b % 16)]

/-- JavaScript `encodeURIComponent`. -/
def encodeURIComponent (s : String) : String :=
  s.data.foldl
    (fun acc c =>
      if c.isAlphanum || uriUnreservedMark c then acc ++ String.mk [c]
      else acc ++ String.join ((utf8Bytes c).map percentByte))
    ""

/-- A video entry on the YouTube search results page
(one `ytd-video-renderer` with its `a#video-title`). -/
structure Video where
  title : String
  id : String
deriving DecidableEq, Repr

/-- The observable effects of `searchAndPlayYouTube`: the URL navigated to
and the video whose title link was clicked, if any. -/
structure PlayOutcome where
  navigatedTo : String
  clicked : Option Video
deriving DecidableEq, Repr

/-- The search URL built by `searchAndPlayYouTube`. -/
def searchUrl (query : String) : String :=
  "https://www.youtube.com/results?search_query=" ++ encodeURIComponent query

/-- `searchAndPlayYouTube(query)`: navigate to the search results for
`query` (both branches of the source's `if` perform the same assignment to
`window.location.href`), then click the first `ytd-video-renderer a#video-title`
on the results page when one exists. The DOM of the results page after
navigation is passed in as the list of rendered videos. -/
def searchAndPlayYouTube (query : String) (resultsPage : List Video) :
    PlayOutcome :=
  { navigatedTo := searchUrl query
    clicked := resultsPage.head? }

/-- The status display: the text and CSS class set by `updateStatus`. -/
structure FeState where
  status : String
  kind : String
deriving DecidableEq, Repr

/-- The outcome of `chrome.runtime.sendMessage` as awaited by
`handleCommand`: either the listener's response value, or a rejection
caught by `handleCommand`'s own `catch`. -/
inductive SendOutcome where
  | ok (r : CommandResult)
  | failed (msg : String)
deriving DecidableEq, Repr

/-- What one `handleCommand` run does once its response is available: the
status display it renders and the query it passes to
`searchAndPlayYouTube`, if any. -/
structure HandleOutcome where
  display : FeState
  dispatched : Option String
deriving DecidableEq, Repr

/-- The response-processing part of `handleCommand`: on `response.success`
it renders `response.message` with kind "success" and, when
`response.searchQuery` is truthy, dispatches it to `searchAndPlayYouTube`;
otherwise it renders `"Error: " + response.error` (resp. the caught
rejection's message) with kind "error" and dispatches nothing. -/
def handleCommand (outcome : SendOutcome) : HandleOutcome :=
  match outcome with
  | .failed msg => ⟨⟨"Error: " ++ msg, "error"⟩, none⟩
  | .ok r =>
    if r.success then
      ⟨⟨jsStr r.message, "success"⟩,
       if jsTruthy r.searchQuery then some (jsStr r.searchQuery) else none⟩
    else
      ⟨⟨"Error: " ++ jsStr r.error, "error"⟩, none⟩

/-- The send-button click handler (the Enter-key handler is identical):
trim the input box's value and call `handleCommand` only when the trimmed
command is truthy; an empty (or all-whitespace) input is discarded. Returns
the command handed to `handleCommand`, if any. -/
def sendClick (inputValue : String) : Option String :=
  let command := jsTrim inputValue
  if command ≠ "" then some command else none

/-- The UI path end to end: the typed input either never reaches the
pipeline (`none`) or is processed by the background script, yielding the
result and the list of network requests issued. -/
def uiProcess (inputValue : String) (env : Env) :
    Option (CommandResult × List ClaudeRequest) :=
  (sendClick inputValue).map (fun command => processCommand command env)

/-! ### The front end as an event sequence (for staleness of results)

`handleCommand` writes `"Processing..."` when a command is issued and the
rendered response when it arrives; responses carry no utterance id, so the
display is just folded over the events in order. An `arrive` event records
(for the statement only — the code cannot observe it) the index of the
issued command the response answers. -/

/-- One observable front-end event. -/
inductive FeEvent where
  | issue (command : String)
  | arrive (answersIdx : Nat) (outcome : SendOutcome)
deriving DecidableEq, Repr

/-- The status display written by one event: `updateStatus("Processing...",
"loading")` on issue, the rendering of the response on arrival. -/
def feStep (_s : FeState) (e : FeEvent) : FeState :=
  match e with
  | .issue _ => ⟨"Processing...", "loading"⟩
  | .arrive _ outcome => (handleCommand outcome).display

/-- The status display after a sequence of front-end events, starting from
the initial "Ready - Type a command!" state. -/
def feRun (events : List FeEvent) : FeState :=
  events.foldl feStep ⟨"Ready - Type a command!", ""⟩

/-! ### Settings popup (`src/youtube-extension/popup.js`) -/

/-- The environment of one save-button click: the currently stored key and
whether `chrome.storage.sync.set` would succeed. -/
structure PopupEnv where
  stored : Option String
  setOk : Bool
deriving DecidableEq, Repr

/-- The observable outcome of one save-button click: the stored key
afterwards, whether a write to storage was attempted, and the status
message/class shown. -/
structure PopupOutcome where
  stored : Option String
  wroteAttempted : Bool
  statusMsg : String
  statusKind : String
deriving DecidableEq, Repr

/-- The save-button click handler (the Enter-key handler just clicks it):
trim the input; an empty trimmed value or one not starting with "sk-ant-"
shows an error and performs no write; otherwise `chrome.storage.sync.set`
stores the trimmed key (on a storage error the catch shows an error and
the stored key is unchanged). -/
def saveClick (inputValue : String) (env : PopupEnv) : PopupOutcome :=
  let apiKey := jsTrim inputValue
  if apiKey = "" then
    ⟨env.stored, false, "Please enter an API key", "error"⟩
  else if ¬ jsStartsWith apiKey "sk-ant-" then
    ⟨env.stored, false, "Invalid API key format", "error"⟩
  else if env.setOk then
    ⟨some apiKey, true, "✅ Settings saved successfully!", "success"⟩
  else
    ⟨env.stored, true, "❌ Error saving settings", "error"⟩

/-! ### The data model of the spec: Action, Intent

The spec's closed Action set and its Intent record. The background script
does not materialize an Intent value; the spec's own end-to-end example
identifies the script's extracted search query with
`Intent{action:search, parameters:{query}}` ("play lofi hip hop" →
`Intent{action:search, parameters:{query:"lofi hip hop"}}`), and that is
the correspondence used here. -/

namespace Amp

/-- The closed set of supported operations. -/
inductive Action where
  | search | play | pause | skip | previous | setVolume | queue
  | createPlaylist | like | shuffleToggle | nowPlaying
deriving DecidableEq, Repr

/-- The closed Action set as a list (all eleven members). -/
def closedActionSet : List Action :=
  [.search, .play, .pause, .skip, .previous, .setVolume, .queue,
   .createPlaylist, .like, .shuffleToggle, .nowPlaying]

/-- A structured intent: an action and its query parameter. -/
structure Intent where
  action : Action
  query : String
deriving DecidableEq, Repr

/-- The Intent that a `processCommand` result denotes, under the spec's
correspondence: a successful extraction with a truthy `searchQuery` is
`Intent{action:search, parameters:{query:searchQuery}}`; any other result
denotes no intent. The guard is exactly `handleCommand`'s dispatch guard
(`response.success && response.searchQuery`). -/
def intentOfResult (r : CommandResult) : Option Intent :=
  if r.success && jsTruthy r.searchQuery then
    some ⟨Action.search, jsStr r.searchQuery⟩
  else
    none

end Amp

/-! ### Session context

Modelled from the spec: no SessionContext exists in the files under `src/`
(the spec describes it for the command-line variant, whose source is not in
the repository snapshot). Following the spec's words: an ordered sequence of
(Utterance, Intent, resulting track-or-error) of bounded length, oldest
evicted first; `record` appends, `recent(k)` returns the last k entries in
chronological order; no entry is mutated after insertion. -/

/-- Modelled from the spec: an Utterance — raw text, timestamp, originating
session id; immutable once created. -/
structure Utterance where
  text : String
  timestamp : Nat
  sessionId : String
deriving DecidableEq, Repr

/-- Modelled from the spec: one SessionContext entry,
(Utterance, Intent, resulting track-or-error). -/
structure SessionEntry where
  utterance : Utterance
  intent : Amp.Intent
  result : CommandResult
deriving DecidableEq, Repr

/-- Modelled from the spec: the SessionContext — a bounded append-only ring
buffer of entries, oldest first, with capacity `cap`. -/
structure SessionContext where
  cap : Nat
  entries : List SessionEntry
deriving DecidableEq, Repr

/-- An empty SessionContext of the given capacity. -/
def SessionContext.empty (cap : Nat) : SessionContext :=
  ⟨cap, []⟩

/-- Modelled from the spec: `record(utterance, intent, result)` appends the
entry; when the buffer is over capacity the oldest entries are evicted. -/
def SessionContext.record (ctx : SessionContext) (e : SessionEntry) :
    SessionContext :=
  let es := ctx.entries ++ [e]
  { ctx with entries := es.drop (es.length - ctx.cap) }

/-- Record a whole sequence of entries in order. -/
def SessionContext.recordAll (ctx : SessionContext) (es : List SessionEntry) :
    SessionContext :=
  es.foldl SessionContext.record ctx

/-- Modelled from the spec: `recent(k)` — the last k entries in
chronological order (all of them when fewer than k are retained). -/
def SessionContext.recent (ctx : SessionContext) (k : Nat) :
    List SessionEntry :=
  ctx.entries.drop (ctx.entries.length - k)

/-! ### Helper lemmas for the session-context ring buffer -/

/-- Evicting down to `cap` after an append commutes with having evicted
before the append: keeping the last `cap` elements of `L ++ [e]` equals
appending `e` to the last `cap` elements of `L` and keeping the last `cap`
of that. -/
lemma drop_last_append {α : Type} (L : List α) (e : α) (cap : Nat) :
    ((L.drop (L.length - cap)) ++ [e]).drop
        (((L.drop (L.length - cap)) ++ [e]).length - cap)
      = (L ++ [e]).drop ((L ++ [e]).length - cap) := by
  rw [List.drop_append_eq_append_drop, List.drop_append_eq_append_drop,
    List.drop_drop]
  have h1 : (L.length - cap) + (((L.drop (L.length - cap)) ++ [e]).length - cap)
      = (L ++ [e]).length - cap := by
    simp; omega
  have h2 : (((L.drop (L.length - cap)) ++ [e]).length - cap)
        - (L.drop (L.length - cap)).length
      = ((L ++ [e]).length - cap) - L.length := by
    simp; omega
  rw [h1, h2]

/-- Recording a batch of entries into a buffer that already holds the last
`cap` elements of `L` leaves the last `cap` elements of `L ++ es`. -/
lemma recordAll_entries_aux (cap : Nat) (es : List SessionEntry) :
    ∀ L : List SessionEntry,
      (SessionContext.recordAll ⟨cap, L.drop (L.length - cap)⟩ es).entries
        = (L ++ es).drop ((L ++ es).length - cap) := by
  induction es with
  | nil => intro L; simp [SessionContext.recordAll]
  | cons e es ih =>
    intro L
    have hrec : SessionContext.record ⟨cap, L.drop (L.length - cap)⟩ e
        = ⟨cap, (L ++ [e]).drop ((L ++ [e]).length - cap)⟩ := by
      simp only [SessionContext.record]
      exact congrArg (SessionContext.mk cap) (drop_last_append L e cap)
    calc (SessionContext.recordAll ⟨cap, L.drop (L.length - cap)⟩ (e :: es)).entries
        = (SessionContext.recordAll
            ⟨cap, (L ++ [e]).drop ((L ++ [e]).length - cap)⟩ es).entries := by
          simp [SessionContext.recordAll, List.foldl_cons, hrec]
      _ = ((L ++ [e]) ++ es).drop (((L ++ [e]) ++ es).length - cap) := ih (L ++ [e])
      _ = (L ++ e :: es).drop ((L ++ e :: es).length - cap) := by simp

/-- After recording `es` into an empty SessionContext of capacity `cap`,
the buffer holds exactly the last `cap` recorded entries, in order. -/
lemma recordAll_entries (cap : Nat) (es : List SessionEntry) :
    ((SessionContext.empty cap).recordAll es).entries
      = es.drop (es.length - cap) := by
  have h := recordAll_entries_aux cap es []
  simpa [SessionContext.empty] using h

/-! ### The claims -/

/-- C1: for every utterance processed by the pipeline, the Intent produced
by extraction (under the spec's correspondence, a successful extraction
with a truthy `searchQuery` denotes `Intent{action:search, query}`) has an
action in the closed Action set, and everything `handleCommand` dispatches
corresponds to such an Intent — so no intent with an action outside the
closed set is ever produced or executed. -/
theorem spec_C1_closed_action_set (command : String) (env : Env) :
    (∀ i, Amp.intentOfResult (processCommand command env).1 = some i →
      i.action ∈ Amp.closedActionSet) ∧
    (∀ q, (handleCommand (.ok (processCommand command env).1)).dispatched = some q →
      ∃ i, Amp.intentOfResult (processCommand command env).1 = some i ∧
        i.query = q ∧ i.action ∈ Amp.closedActionSet) := by
  set r := (processCommand command env).1 with hr
  constructor
  · intro i hi
    by_cases h : r.success && jsTruthy r.searchQuery
    · simp [Amp.intentOfResult, h] at hi
      rw [← hi]
      simp [Amp.closedActionSet]
    · simp [Amp.intentOfResult, h] at hi
  · intro q hq
    by_cases hs : r.success
    · by_cases ht : jsTruthy r.searchQuery
      · refine ⟨⟨Amp.Action.search, jsStr r.searchQuery⟩, ?_, ?_, ?_⟩
        · simp [Amp.intentOfResult, hs, ht]
        · simp [handleCommand, hs, ht] at hq
          simpa using hq
        · simp [Amp.closedActionSet]
      · simp [handleCommand, hs, ht] at hq
    · simp [handleCommand, hs] at hq

/-- C1 witness: a concrete successful run produces the intent
`{action:search, query:"jazz music"}`, whose action is in the closed set. -/
theorem spec_C1_witness :
    Amp.intentOfResult (processCommand "play jazz"
        ⟨some "sk-ant-key", .response true none ["jazz music"]⟩).1
      = some ⟨Amp.Action.search, "jazz music"⟩ ∧
    Amp.Intent.action ⟨Amp.Action.search, "jazz music"⟩ ∈ Amp.closedActionSet :=
  ⟨by decide,
   (spec_C1_closed_action_set "play jazz"
      ⟨some "sk-ant-key", .response true none ["jazz music"]⟩).1
     ⟨Amp.Action.search, "jazz music"⟩ (by decide)⟩

/-- C2: for every command and every outcome of the upstream calls, every
error thrown inside `processCommand`'s body is caught at its boundary and
converted into a plain result value with `success:false` and the thrown
error's human-readable message; non-throwing runs pass their result value
through unchanged, and every failure result carries a message — so no
exception propagates past the pipeline boundary into the front end. -/
theorem spec_C2_errors_converted (command : String) (env : Env) :
    ((processCommand command env).1.success = false →
      ∃ m, (processCommand command env).1.error = some m) ∧
    (∀ e reqs, processCommandBody command env = (.error e, reqs) →
      processCommand command env =
        ({ success := false, error := some e.message }, reqs)) ∧
    (∀ r reqs, processCommandBody command env = (.ok r, reqs) →
      processCommand command env = (r, reqs)) := by
  refine ⟨?_, ?_, ?_⟩
  · intro hfail
    unfold processCommand processCommandBody at *
    by_cases hk : jsTruthy env.apiKey
    · cases hf : env.fetch with
      | reject msg => simp [hk, hf]
      | jsonFail msg => simp [hk, hf]
      | response ok errBody content =>
        by_cases ho : ok
        · cases content with
          | nil => simp [hk, hf, ho]
          | cons t rest => simp [hk, hf, ho] at hfail
        · simp [hk, hf, ho]
    · simp [hk, noApiKeyResult]
  · intro e reqs h
    simp [processCommand, h]
  · intro r reqs h
    simp [processCommand, h]

/-- C2 witness: a concrete network failure is converted at the boundary
into `{success:false, error:"network down"}` and nothing is thrown. -/
theorem spec_C2_witness :
    processCommand "x" ⟨some "sk-ant-key", .reject "network down"⟩
      = ({ success := false, error := some "network down" },
         [claudeRequestFor "x"]) :=
  (spec_C2_errors_converted "x" ⟨some "sk-ant-key", .reject "network down"⟩).2.1
    ⟨"network down"⟩ [claudeRequestFor "x"] rfl

/-- C3 counterexample: `processCommand` applied directly to the empty
utterance, with a key configured and a well-formed model response, succeeds
and issues one model request — it does not fail with any `EmptyInputError`
and a network call is made, so the claim as stated is false of the
extraction function. -/
theorem spec_C3_counterexample :
    (processCommand ""
        ⟨some "sk-ant-key", .response true none ["jazz music"]⟩).1.success = true ∧
    (processCommand ""
        ⟨some "sk-ant-key", .response true none ["jazz music"]⟩).2.length = 1 :=
  ⟨rfl, rfl⟩

/-- C3 (amended): the empty utterance never reaches extraction: the front
end's send handlers trim the input and forward only truthy commands, so for
any input that trims to the empty string nothing is processed and no model
request is issued; no `EmptyInputError` exists — the empty input is
silently discarded. -/
theorem spec_C3_empty_input_discarded (inputValue : String) (env : Env)
    (h : jsTrim inputValue = "") : uiProcess inputValue env = none := by
  simp [uiProcess, sendClick, h]

/-- C3 witness: a whitespace-only input is discarded; no result and no
request is produced. -/
theorem spec_C3_witness :
    jsTrim "   " = "" ∧
    uiProcess "   " ⟨some "sk-ant-key", .response true none ["jazz music"]⟩ = none :=
  ⟨rfl, spec_C3_empty_input_discarded "   "
    ⟨some "sk-ant-key", .response true none ["jazz music"]⟩ rfl⟩

/-- C4 counterexample: on an unparseable model response (no content block),
`processCommand` fails after exactly one model request — no repair
re-prompt is issued, so "exactly one repair attempt (a single re-prompt)
before failing" (which would take two requests) is false of the code. -/
theorem spec_C4_counterexample :
    (processCommand "play jazz"
        ⟨some "sk-ant-key", .response true none []⟩).1.success = false ∧
    (processCommand "play jazz"
        ⟨some "sk-ant-key", .response true none []⟩).2.length = 1 ∧
    (processCommand "play jazz"
        ⟨some "sk-ant-key", .response true none []⟩).2.length ≠ 2 :=
  ⟨rfl, rfl, by decide⟩

/-- C4 (amended): extraction never issues more than one model request; when
the model call fails or its response is unparseable it fails immediately —
with zero repair attempts — after the single original request, and a failed
extraction is never automatically retried. -/
theorem spec_C4_no_repair_attempt (command : String) (env : Env) :
    (processCommand command env).2.length ≤ 1 ∧
    (∀ e reqs, processCommandBody command env = (.error e, reqs) →
      (processCommand command env).1.success = false ∧
      (processCommand command env).2 = [claudeRequestFor command]) := by
  constructor
  · unfold processCommand processCommandBody
    by_cases hk : jsTruthy env.apiKey
    · cases hf : env.fetch with
      | reject msg => simp [hk]
      | jsonFail msg => simp [hk]
      | response ok errBody content =>
        by_cases ho : ok
        · cases content with
          | nil => simp [hk, ho]
          | cons t rest => simp [hk, ho]
        · simp [hk, ho]
    · simp [hk]
  · intro e reqs h
    have hreq : reqs = [claudeRequestFor command] := by
      unfold processCommandBody at h
      by_cases hk : jsTruthy env.apiKey
      · cases hf : env.fetch with
        | reject msg => rw [hf] at h; simp [hk] at h; exact h.2.symm
        | jsonFail msg => rw [hf] at h; simp [hk] at h; exact h.2.symm
        | response ok errBody content =>
          rw [hf] at h
          by_cases ho : ok
          · cases content with
            | nil => simp [hk, ho] at h; exact h.2.symm
            | cons t rest => simp [hk, ho] at h
          · simp [hk, ho] at h; exact h.2.symm
      · simp [hk] at h
    subst hreq
    simp [processCommand, h]

/-- C4 witness: a concrete unparseable response fails with exactly the one
original request issued. -/
theorem spec_C4_witness :
    (processCommand "x" ⟨some "sk-ant-key", .response true none []⟩).1.success = false ∧
    (processCommand "x" ⟨some "sk-ant-key", .response true none []⟩).2
      = [claudeRequestFor "x"] :=
  (spec_C4_no_repair_attempt "x" ⟨some "sk-ant-key", .response true none []⟩).2
    ⟨contentTypeErrorMessage⟩ [claudeRequestFor "x"] rfl

/-- C5: for every play request, dispatch resolves the query via the YouTube
search page for exactly that query and starts playback of exactly the first
search result by clicking its title link (the code's Intent carries no
disambiguation hint, so the first result is always taken). -/
theorem spec_C5_play_first_result (query : String) (resultsPage : List Video)
    (h : resultsPage ≠ []) :
    (searchAndPlayYouTube query resultsPage).navigatedTo = searchUrl query ∧
    (searchAndPlayYouTube query resultsPage).clicked
      = some (resultsPage.head h) :=
  ⟨rfl, List.head?_eq_head h⟩

/-- C5 witness: a concrete search-and-play run navigates to the search for
the query and clicks the first rendered video. -/
theorem spec_C5_witness :
    (searchAndPlayYouTube "lofi hip hop"
        [⟨"Lofi Girl", "v1"⟩, ⟨"Other", "v2"⟩]).navigatedTo
      = searchUrl "lofi hip hop" ∧
    (searchAndPlayYouTube "lofi hip hop"
        [⟨"Lofi Girl", "v1"⟩, ⟨"Other", "v2"⟩]).clicked
      = some (([⟨"Lofi Girl", "v1"⟩, ⟨"Other", "v2"⟩] : List Video).head (by decide)) :=
  spec_C5_play_first_result "lofi hip hop"
    [⟨"Lofi Girl", "v1"⟩, ⟨"Other", "v2"⟩] (by decide)

/-- C6 counterexample: with a SessionContext of capacity 3, after recording
N = 4 entries, `recent(4)` (k = 4 ≤ N) does not return the last 4 recorded
entries — the oldest was evicted — so the round-trip claim as stated is
false of the bounded ring buffer the spec prescribes. -/
theorem spec_C6_counterexample :
    ((SessionContext.empty 3).recordAll
        [⟨⟨"a", 0, "s"⟩, ⟨Amp.Action.search, "qa"⟩, { success := true }⟩,
         ⟨⟨"b", 1, "s"⟩, ⟨Amp.Action.search, "qb"⟩, { success := true }⟩,
         ⟨⟨"c", 2, "s"⟩, ⟨Amp.Action.search, "qc"⟩, { success := true }⟩,
         ⟨⟨"d", 3, "s"⟩, ⟨Amp.Action.search, "qd"⟩, { success := true }⟩]).recent 4
      ≠ [⟨⟨"a", 0, "s"⟩, ⟨Amp.Action.search, "qa"⟩, { success := true }⟩,
         ⟨⟨"b", 1, "s"⟩, ⟨Amp.Action.search, "qb"⟩, { success := true }⟩,
         ⟨⟨"c", 2, "s"⟩, ⟨Amp.Action.search, "qc"⟩, { success := true }⟩,
         ⟨⟨"d", 3, "s"⟩, ⟨Amp.Action.search, "qd"⟩, { success := true }⟩] := by
  decide

/-- C6 (amended): for every capacity, every sequence of N recorded entries
and every k: if k ≤ min(N, capacity) then `recent(k)` returns exactly the
last k recorded entries in chronological order, and if k > min(N, capacity)
it returns all min(N, capacity) retained entries without error. -/
theorem spec_C6_recent_ring (cap : Nat) (es : List SessionEntry) (k : Nat) :
    (k ≤ min es.length cap →
      ((SessionContext.empty cap).recordAll es).recent k
        = es.drop (es.length - k)) ∧
    (min es.length cap < k →
      ((SessionContext.empty cap).recordAll es).recent k
        = es.drop (es.length - cap)) := by
  have hent := recordAll_entries cap es
  constructor
  · intro hk
    rw [SessionContext.recent, hent, List.drop_drop, List.length_drop]
    congr 1
    omega
  · intro hk
    rw [SessionContext.recent, hent, List.length_drop]
    have h0 : es.length - (es.length - cap) - k = 0 := by omega
    rw [h0, List.drop_zero]

/-- C6 witness: recording 2 entries into a capacity-3 context and asking
for the last 2 returns both, in order. -/
theorem spec_C6_witness :
    ((SessionContext.empty 3).recordAll
        [⟨⟨"a", 0, "s"⟩, ⟨Amp.Action.search, "qa"⟩, { success := true }⟩,
         ⟨⟨"b", 1, "s"⟩, ⟨Amp.Action.search, "qb"⟩, { success := true }⟩]).recent 2
      = List.drop (2 - 2)
          [⟨⟨"a", 0, "s"⟩, ⟨Amp.Action.search, "qa"⟩, { success := true }⟩,
           ⟨⟨"b", 1, "s"⟩, ⟨Amp.Action.search, "qb"⟩, { success := true }⟩] :=
  (spec_C6_recent_ring 3
    [⟨⟨"a", 0, "s"⟩, ⟨Amp.Action.search, "qa"⟩, { success := true }⟩,
     ⟨⟨"b", 1, "s"⟩, ⟨Amp.Action.search, "qb"⟩, { success := true }⟩] 2).1 (by decide)

/-- C7 counterexample: results carry no utterance id and the front end does
no staleness filtering. Two commands are issued (index 1, "play jazz", is
the latest); the response answering the latest command arrives first and
the stale response answering command 0 arrives last: the final status
display shows the stale result, overwriting the newer command's display —
so the claim as stated is false of the code. -/
theorem spec_C7_counterexample :
    feRun [FeEvent.issue "play rock", FeEvent.issue "play jazz",
      FeEvent.arrive 1 (SendOutcome.ok
        ⟨true, some "🎵 Searching for: jazz music", none, some "jazz music"⟩),
      FeEvent.arrive 0 (SendOutcome.ok
        ⟨true, some "🎵 Searching for: rock music", none, some "rock music"⟩)]
      = ⟨"🎵 Searching for: rock music", "success"⟩ ∧
    ("🎵 Searching for: rock music" : String) ≠ "🎵 Searching for: jazz music" :=
  ⟨rfl, by decide⟩

/-- C7 (amended): results are not tagged with an utterance id and the front
end discards nothing: after any sequence of front-end events, the status
display shows the rendering of whichever response arrived last, whatever
utterance it answers — so a stale result can overwrite a newer command's
status display. -/
theorem spec_C7_last_arrival_wins (events : List FeEvent) (idx : Nat)
    (outcome : SendOutcome) :
    feRun (events ++ [.arrive idx outcome]) = (handleCommand outcome).display := by
  simp [feRun, List.foldl_append, feStep]

/-- C8: for every command, when the stored API key is absent (or empty, the
other falsy case), `processCommand` returns `success:false` with the
message telling the user to configure the key, and issues no request to the
language-model endpoint. -/
theorem spec_C8_no_key_no_request (command : String) (env : Env)
    (h : jsTruthy env.apiKey = false) :
    processCommand command env =
      ({ success := false,
         error := some "API key not set. Click the extension icon to configure." },
       []) := by
  simp [processCommand, processCommandBody, h, noApiKeyResult]

/-- C8 witness: with no key stored, a concrete command yields the configure
message and an empty request list. -/
theorem spec_C8_witness :
    jsTruthy (Env.mk none (.response true none ["jazz music"])).apiKey = false ∧
    processCommand "play jazz" ⟨none, .response true none ["jazz music"]⟩ =
      ({ success := false,
         error := some "API key not set. Click the extension icon to configure." },
       []) :=
  ⟨rfl, spec_C8_no_key_no_request "play jazz"
    ⟨none, .response true none ["jazz music"]⟩ rfl⟩

/-- C9: the popup's save handler attempts a write only when the trimmed
input is nonempty and starts with "sk-ant-"; for every other input it shows
an error and leaves the stored key unchanged; and after any click the
stored key is either unchanged or is the trimmed input, which starts with
"sk-ant-" — so every key ever stored via the popup starts with "sk-ant-". -/
theorem spec_C9_key_format (inputValue : String) (env : PopupEnv) :
    ((saveClick inputValue env).wroteAttempted = true →
      jsTrim inputValue ≠ "" ∧
      jsStartsWith (jsTrim inputValue) "sk-ant-" = true) ∧
    ((jsTrim inputValue = "" ∨ jsStartsWith (jsTrim inputValue) "sk-ant-" = false) →
      (saveClick inputValue env).stored = env.stored ∧
      (saveClick inputValue env).statusKind = "error") ∧
    ((saveClick inputValue env).stored = env.stored ∨
      ((saveClick inputValue env).stored = some (jsTrim inputValue) ∧
       jsStartsWith (jsTrim inputValue) "sk-ant-" = true ∧
       jsTrim inputValue ≠ "")) := by
  by_cases he : jsTrim inputValue = ""
  · simp [saveClick, he]
  · by_cases hp : jsStartsWith (jsTrim inputValue) "sk-ant-"
    · by_cases hs : env.setOk
      · simp [saveClick, he, hp, hs]
      · simp [saveClick, he, hp, hs]
    · simp [saveClick, he, hp]

/-- C9 witness: a concrete save of a padded valid key attempts the write,
and its trimmed value is nonempty and starts with "sk-ant-". -/
theorem spec_C9_witness :
    (saveClick "  sk-ant-abc123  " ⟨none, true⟩).wroteAttempted = true ∧
    jsTrim "  sk-ant-abc123  " ≠ "" ∧
    jsStartsWith (jsTrim "  sk-ant-abc123  ") "sk-ant-" = true :=
  ⟨by decide, (spec_C9_key_format "  sk-ant-abc123  " ⟨none, true⟩).1 (by decide)⟩

/-- C10: for every command whose model call succeeds (an ok response with a
first content block `t`), `processCommand` returns `success:true`, its
`searchQuery` is exactly `t` with surrounding whitespace trimmed, and its
message contains that `searchQuery` as a substring. -/
theorem spec_C10_success_result (command : String) (apiKey : String)
    (errBody : Option String) (t : String) (rest : List String)
    (hk : apiKey ≠ "") :
    (processCommand command
        ⟨some apiKey, .response true errBody (t :: rest)⟩).1.success = true ∧
    (processCommand command
        ⟨some apiKey, .response true errBody (t :: rest)⟩).1.searchQuery
      = some (jsTrim t) ∧
    ∃ pre post,
      (processCommand command
          ⟨some apiKey, .response true errBody (t :: rest)⟩).1.message
        = some (pre ++ jsTrim t ++ post) := by
  refine ⟨?_, ?_, "🎵 Searching for: ", "", ?_⟩ <;>
    simp [processCommand, processCommandBody, jsTruthy, hk]

/-- C10 witness: a concrete successful model call yields a trimmed search
query embedded in the status message. -/
theorem spec_C10_witness :
    ("sk-ant-key" : String) ≠ "" ∧
    (processCommand "play jazz"
        ⟨some "sk-ant-key", .response true none [" jazz music "]⟩).1.searchQuery
      = some (jsTrim " jazz music ") :=
  ⟨by decide,
   (spec_C10_success_result "play jazz" "sk-ant-key" none " jazz music " []
      (by decide)).2.1⟩
